import Mathlib

/-!
Verification of the campaign completion monitor and results-extraction
pipeline of the simulakra repository (phishbot.py), shallowly embedded in
Lean 4.

Modelling conventions:
* Python dictionaries returned by the campaign service are embedded as
  structures whose fields are Option-typed: none models an absent key, and
  Option.getD models dict.get(key, default).  Dictionary key-membership
  tests on per-target result records are embedded as Boolean fields.
* API calls that may raise are embedded as Except String values supplied by
  an environment record; a Python try/except block is a match on that value.
* Wall-clock time in the monitor is discrete, in seconds: the several
  datetime.now() readings inside one loop iteration coincide, each
  non-returning iteration advances time by exactly the sleep interval
  (600 s), and start_time is 0.
* Python str.lower() is modelled by an ASCII lower-casing function (the
  strings involved are ASCII).
-/

/-- ASCII lower-casing of one character. -/
def lowerChar (c : Char) : Char :=
  if 65 ≤ c.toNat ∧ c.toNat ≤ 90 then Char.ofNat (c.toNat + 32) else c

/-- ASCII lower-casing of a string, modelling Python str.lower on the ASCII
strings this program handles. -/
def lowerStr (s : String) : String := ⟨s.data.map lowerChar⟩

/-- Boolean test that the first list of characters is an initial segment of
the second. -/
def listStarts : List Char → List Char → Bool
  | [], _ => true
  | _ :: _, [] => false
  | a :: as, b :: bs => a == b && listStarts as bs

/-- Boolean test that pat occurs contiguously somewhere in the second list. -/
def listHas (pat : List Char) : List Char → Bool
  | [] => match pat with
    | [] => true
    | _ :: _ => false
  | c :: rest => listStarts pat (c :: rest) || listHas pat rest

/-- Embedding of the Python substring test pat in hay. -/
def strHas (hay pat : String) : Bool := listHas pat.data hay.data

/-- Details payload of a timeline event (event.get with string defaults). -/
structure Details where
  email : Option String := none
  first_name : Option String := none
  last_name : Option String := none
deriving DecidableEq

/-- One timeline event as read by extract_campaign_results. -/
structure TimelineEvent where
  message : Option String := none
  email : Option String := none
  time : Option String := none
  details : Option Details := none
deriving DecidableEq

/-- Aggregate campaign statistics (summary.get with default 0 per field). -/
structure Stats where
  total : Option Int := none
  sent : Option Int := none
  opened : Option Int := none
  clicked : Option Int := none
  submitted_data : Option Int := none
deriving DecidableEq

/-- Campaign summary returned by get_campaign_summary. -/
structure Summary where
  timeline : Option (List TimelineEvent) := none
  stats : Option Stats := none
deriving DecidableEq

/-- One member of a target group. -/
structure TargetRec where
  first_name : Option String := none
  last_name : Option String := none
  email : Option String := none
deriving DecidableEq

/-- A target group attached to a campaign. -/
structure GroupRec where
  targets : Option (List TargetRec) := none
deriving DecidableEq

/-- One per-target result record of a campaign.  The two Boolean fields
embed the Python key-membership tests (key in result) for the keys
clicked and submitted_data. -/
structure ResultRec where
  status : Option String := none
  email : Option String := none
  first_name : Option String := none
  last_name : Option String := none
  send_date : Option String := none
  reported : Option Bool := none
  has_clicked_key : Bool := false
  has_submitted_data_key : Bool := false
deriving DecidableEq

/-- A campaign record as returned by get_campaign. -/
structure CampaignRec where
  id : Option Int := none
  status : Option String := none
  results : Option (List ResultRec) := none
  groups : Option (List GroupRec) := none
deriving DecidableEq

/-- Output unit of the extraction pipeline. -/
structure AffectedUser where
  first_name : String
  last_name : String
  email : String
  event_time : String
  event_type : String
deriving DecidableEq

/-- Environment of the extraction pipeline: the two read operations of the
campaign service (either may fail) and the wall-clock reading used by the
statistical-reconstruction strategy. -/
structure ExtractEnv where
  get_campaign_summary : Int → Except String Summary
  get_campaign : Int → Except String CampaignRec
  now_iso : String

/-- The fixed vocabulary of click/submission phrases of Strategy A. -/
def click_indicators : List String :=
  ["clicked link", "clicked", "link clicked",
   "submitted data", "submitted", "data submitted",
   "form submitted", "credentials submitted",
   "email clicked", "user clicked"]

/-- Lower-cased message of a timeline event (empty string when absent). -/
def evLowerMsg (e : TimelineEvent) : String := lowerStr (e.message.getD "")

/-- Email resolution of Strategy A: the direct email field when the key is
present, otherwise the details payload email (empty default). -/
def evEmail (e : TimelineEvent) : String :=
  match e.email with
  | some s => s
  | none => ((e.details.getD {}).email).getD ""

/-- Whether the lower-cased message matches any click/submission phrase. -/
def evMatches (e : TimelineEvent) : Bool :=
  click_indicators.any (fun ind => strHas (evLowerMsg e) ind)

/-- De-duplication key built by Strategy A: the Python f-string
email_message, i.e. the concatenation with an underscore separator. -/
def evKey (e : TimelineEvent) : String := evEmail e ++ "_" ++ evLowerMsg e

/-- AffectedUser built from a matched timeline event. -/
def mkUserA (e : TimelineEvent) : AffectedUser :=
  { first_name := ((e.details.getD {}).first_name).getD ""
    last_name := ((e.details.getD {}).last_name).getD ""
    email := evEmail e
    event_time := e.time.getD ""
    event_type := e.message.getD (evLowerMsg e) }

/-- One iteration of the Strategy A loop over timeline events.  The state is
the processed-keys set (as a list) together with the accumulated users; the
key is recorded before the email-nonempty check, exactly as in the source. -/
def methodOneStep (st : List String × List AffectedUser) (event : TimelineEvent) :
    List String × List AffectedUser :=
  if evMatches event then
    if evKey event ∈ st.1 then st
    else
      (evKey event :: st.1,
       if evEmail event ≠ "" then st.2 ++ [mkUserA event] else st.2)
  else st

/-- Strategy A: the timeline scan, starting from an empty processed set. -/
def strategyA (timeline : List TimelineEvent) : List String × List AffectedUser :=
  timeline.foldl methodOneStep ([], [])

/-- One iteration of the Strategy B loop over per-target result records. -/
def methodTwoStep (st : List String × List AffectedUser) (r : ResultRec) :
    List String × List AffectedUser :=
  if (r.status = some "Clicked Link" ∨ r.status = some "Submitted Data") ∨
     r.has_clicked_key = true ∨ r.has_submitted_data_key = true ∨
     r.reported.getD false = true then
    if r.email.getD "" ≠ "" ∧ r.email.getD "" ∉ st.1 then
      (r.email.getD "" :: st.1,
       st.2 ++ [{ first_name := r.first_name.getD ""
                  last_name := r.last_name.getD ""
                  email := r.email.getD ""
                  event_time := r.send_date.getD ""
                  event_type :=
                    if r.has_submitted_data_key = true ∨ r.status = some "Submitted Data"
                    then "Submitted Data" else "Clicked Link" }])
    else st
  else st

/-- Strategy C treatment of one enumerated target of the first group. -/
def methodThreeTarget (now_iso : String) (clicked submitted : Int) (i : Nat)
    (t : TargetRec) : List AffectedUser :=
  if (i : Int) < max clicked submitted then
    if t.email.getD "" ≠ "" then
      [{ first_name := t.first_name.getD ""
         last_name := t.last_name.getD ""
         email := t.email.getD ""
         event_time := now_iso
         event_type := if (i : Int) < submitted then "Submitted Data" else "Clicked Link" }]
    else []
  else []

/-- Strategy C: statistical reconstruction from the first target group only
(the source breaks out of the group loop after the first group). -/
def methodThree (now_iso : String) (clicked submitted : Int)
    (groups : List GroupRec) : List AffectedUser :=
  match groups with
  | [] => []
  | g :: _ =>
      (g.targets.getD []).enum.foldl
        (fun acc p => acc ++ methodThreeTarget now_iso clicked submitted p.1 p.2) []

/-- Phase 3 of the pipeline: when nothing was extracted so far but the
aggregate stats report activity, re-fetch the campaign and synthesize
entries from the first group. -/
def strategyCFull (env : ExtractEnv) (id : Int) (summary : Summary)
    (au : List AffectedUser) : Except String (List AffectedUser) :=
  if au = [] then
    if (summary.stats.getD {}).clicked.getD 0 > 0 ∨
       (summary.stats.getD {}).submitted_data.getD 0 > 0 then
      match env.get_campaign id with
      | .error e => .error e
      | .ok cd =>
          .ok (au ++ methodThree env.now_iso ((summary.stats.getD {}).clicked.getD 0)
                 ((summary.stats.getD {}).submitted_data.getD 0) (cd.groups.getD []))
    else .ok au
  else .ok au

/-- Body of the try block of extract_campaign_results: reads campaign[id]
(a KeyError when absent), fetches the summary, runs Strategy A over the
timeline, runs Strategy B only when nothing was extracted and the timeline
itself is empty, and finally the stats-based Strategy C. -/
def extractE (env : ExtractEnv) (campaign : CampaignRec) :
    Except String (List AffectedUser) :=
  match campaign.id with
  | none => .error "KeyError: id"
  | some id =>
    match env.get_campaign_summary id with
    | .error e => .error e
    | .ok results =>
      let timeline := results.timeline.getD []
      let st1 := strategyA timeline
      if st1.2 = [] ∧ timeline.length = 0 then
        match env.get_campaign id with
        | .error e => .error e
        | .ok cd =>
            strategyCFull env id results ((cd.results.getD []).foldl methodTwoStep st1).2
      else strategyCFull env id results st1.2

/-- extract_campaign_results: the try block with its catch-all except that
degrades any internal failure to the empty list. -/
def extract_campaign_results (env : ExtractEnv) (campaign : CampaignRec) :
    List AffectedUser :=
  match extractE env campaign with
  | .ok l => l
  | .error _ => []

/-- Environment of the completion monitor: for each loop iteration the
combined outcome of the two poll fetches (get_campaign and
get_campaign_summary, either of which may raise), plus the outcome of the
unguarded final fetch performed after the deadline. -/
structure MonEnv where
  polls : Nat → Except String (CampaignRec × Summary)
  finalFetch : Except String CampaignRec

/-- Outcome of one iteration of the monitoring loop: either return a
snapshot now, or sleep and continue with a possibly updated
last_activity_check. -/
inductive StepRes where
  | ret (c : CampaignRec)
  | cont (lac : Option Nat)
deriving DecidableEq

/-- Result of a whole monitoring call: the time (seconds after start_time)
at which the call ends, and the returned snapshot or the propagated
exception of the unguarded final fetch. -/
structure MonRes where
  time : Nat
  res : Except String CampaignRec

/-- The set of status labels treated as explicit completion. -/
def completedStatuses : List String := ["Completed", "Finished"]

/-- One iteration of the monitoring loop body at wall-clock second now with
current last_activity_check lac: an exception from either fetch is caught
and the loop just sleeps and retries; otherwise the layered stop conditions
of the source are applied in order. -/
def monitorStep (p : Except String (CampaignRec × Summary)) (now : Nat)
    (lac : Option Nat) : StepRes :=
  match p with
  | .error _ => .cont lac
  | .ok (campaign, summary) =>
    let status := campaign.status.getD "Unknown"
    let stats := summary.stats.getD {}
    let total := stats.total.getD 0
    let sent := stats.sent.getD 0
    let clicked := stats.clicked.getD 0
    let submitted := stats.submitted_data.getD 0
    if status ∈ completedStatuses then .ret campaign
    else if sent > 0 ∧ sent = total then
      if clicked > 0 ∨ submitted > 0 then
        match lac with
        | none => .cont (some now)
        | some t => if (now : Int) - (t : Int) > 1800 then .ret campaign else .cont (some t)
      else if sent = total then
        if (now : Int) - 0 > 3600 then .ret campaign else .cont lac
      else .cont lac
    else .cont lac

/-- The monitoring loop: iteration k runs at second 600 * k; the loop exits
when that reaches the deadline and then performs the unguarded final fetch.
The fuel argument only bounds the recursion; wait_for_campaign_completion
supplies enough fuel that the zero-fuel branch coincides with the normal
deadline exit. -/
def monitorGo (env : MonEnv) (timeoutTime : Nat) :
    Nat → Nat → Option Nat → MonRes
  | 0, k, _ => { time := 600 * k, res := env.finalFetch }
  | fuel + 1, k, lac =>
    if 600 * k < timeoutTime then
      match monitorStep (env.polls k) (600 * k) lac with
      | .ret c => { time := 600 * k, res := .ok c }
      | .cont lacNext => monitorGo env timeoutTime fuel (k + 1) lacNext
    else { time := 600 * k, res := env.finalFetch }

/-- wait_for_campaign_completion: poll every 600 s from start_time 0 until a
stop condition fires or the deadline 3600 * timeout_hours is reached. -/
def wait_for_campaign_completion (env : MonEnv) (timeout_hours : Nat) : MonRes :=
  monitorGo env (3600 * timeout_hours) (3600 * timeout_hours) 0 none

/-- The sustained-activity condition of the monitor: everything delivered
and at least one click or data submission recorded. -/
def activityCond (stats : Stats) : Prop :=
  stats.sent.getD 0 > 0 ∧ stats.sent.getD 0 = stats.total.getD 0 ∧
  (stats.clicked.getD 0 > 0 ∨ stats.submitted_data.getD 0 > 0)

instance (stats : Stats) : Decidable (activityCond stats) := by
  unfold activityCond; infer_instance

/-! ## Concrete campaign-service environments used by witnesses -/

/-- A campaign record carrying no fields at all (in particular no id). -/
def cNoId : CampaignRec := {}

/-- A campaign record holding only an id. -/
def cOne : CampaignRec := { id := some 1 }

/-- An environment in which every service read fails. -/
def envFail : ExtractEnv :=
  { get_campaign_summary := fun _ => .error "boom"
    get_campaign := fun _ => .error "boom"
    now_iso := "" }

/-- Timeline event whose key collides with ev2: email a, message B_Clicked. -/
def ev1 : TimelineEvent := { message := some "B_Clicked", email := some "a" }

/-- Timeline event whose key collides with ev1: email a_b, message Clicked. -/
def ev2 : TimelineEvent := { message := some "Clicked", email := some "a_b" }

/-- Summary whose timeline holds the two colliding events. -/
def sumC3 : Summary := { timeline := some [ev1, ev2] }

/-- Environment serving the colliding-key timeline. -/
def envC3 : ExtractEnv :=
  { get_campaign_summary := fun _ => .ok sumC3
    get_campaign := fun _ => .error "unused"
    now_iso := "T0" }

/-- Timeline event with an upper-case email address. -/
def evC5 : TimelineEvent := { message := some "Clicked Link", email := some "A@X.COM" }

/-- Summary whose timeline holds the upper-case-email event. -/
def sumC5 : Summary := { timeline := some [evC5] }

/-- Environment serving the upper-case-email timeline. -/
def envC5 : ExtractEnv :=
  { get_campaign_summary := fun _ => .ok sumC5
    get_campaign := fun _ => .error "unused"
    now_iso := "T0" }

/-! ## C1 -/

/-- C1: extract_campaign_results never raises: it is a total function into
lists of AffectedUser, and every internal failure path (a campaign record
with no id, a failing summary fetch, or any other error of the embedded try
block) degrades to the empty list. -/
theorem extract_never_raises (env : ExtractEnv) (c : CampaignRec) :
    (c.id = none → extract_campaign_results env c = [])
    ∧ (∀ id e, c.id = some id → env.get_campaign_summary id = .error e →
        extract_campaign_results env c = [])
    ∧ (∀ e, extractE env c = .error e → extract_campaign_results env c = []) := by
  refine ⟨?_, ?_, ?_⟩
  · intro h
    unfold extract_campaign_results extractE
    rw [h]
  · intro id e h1 h2
    unfold extract_campaign_results extractE
    rw [h1]
    dsimp only
    rw [h2]
  · intro e h
    unfold extract_campaign_results
    rw [h]

/-- Witness: a campaign with no id, and one whose summary fetch fails, both
extract to the empty list. -/
theorem extract_never_raises_witness :
    extract_campaign_results envFail cNoId = []
    ∧ extract_campaign_results envFail cOne = [] :=
  ⟨(extract_never_raises envFail cNoId).1 rfl,
   (extract_never_raises envFail cOne).2.1 1 "boom" rfl rfl⟩

/-! ## C3 -/

/-- Counterexample to C3: ev1 and ev2 are both matched, both resolve
non-empty emails, and their (email, lower-cased message) pairs differ, yet
extract_campaign_results emits only one AffectedUser for them, because the
de-duplication key is the string concatenation email_message and the two
pairs concatenate to the same key a_b_clicked. -/
theorem dedup_pair_counterexample :
    extract_campaign_results envC3 cOne =
      [{ first_name := "", last_name := "", email := "a", event_time := "",
         event_type := "B_Clicked" }]
    ∧ (evEmail ev1, evLowerMsg ev1) ≠ (evEmail ev2, evLowerMsg ev2)
    ∧ evMatches ev1 = true ∧ evMatches ev2 = true
    ∧ evEmail ev1 ≠ "" ∧ evEmail ev2 ≠ "" := by
  refine ⟨by decide, by decide, by decide, by decide, by decide, by decide⟩

/-- C3 amended: Strategy A de-duplicates by the concatenated key
email ++ _ ++ lower-cased message (the Python f-string email_message), not
by the pair: for two matched events that each resolve a non-empty email,
exactly one AffectedUser is emitted when the concatenated keys coincide and
both are emitted when the keys differ; distinct (email, message) pairs whose
concatenations collide are conflated. -/
theorem dedup_by_concatenated_key (e1 e2 : TimelineEvent)
    (h1 : evMatches e1 = true) (h2 : evMatches e2 = true)
    (h3 : evEmail e1 ≠ "") (h4 : evEmail e2 ≠ "") :
    (strategyA [e1, e2]).2.length = if evKey e2 = evKey e1 then 1 else 2 := by
  by_cases hk : evKey e2 = evKey e1
  · simp [strategyA, methodOneStep, h1, h2, h3, h4, hk]
  · simp [strategyA, methodOneStep, h1, h2, h3, h4, hk]

/-- Witness: two matched events with distinct emails and the same message
have distinct concatenated keys and both are emitted. -/
theorem dedup_by_concatenated_key_witness :
    (strategyA [{ message := some "Clicked Link", email := some "u1@x" },
                { message := some "Clicked Link", email := some "u2@x" }]).2.length =
      if evKey { message := some "Clicked Link", email := some "u2@x" } =
         evKey { message := some "Clicked Link", email := some "u1@x" } then 1 else 2 :=
  dedup_by_concatenated_key _ _ (by decide) (by decide) (by decide) (by decide)

/-! ## C5 -/

/-- Counterexample to C5: a timeline event with the upper-case email
A@X.COM is emitted with that email unchanged, which is not equal to its own
lower-casing: no strategy of extract_campaign_results lower-cases emails. -/
theorem email_lowercase_counterexample :
    (extract_campaign_results envC5 cOne).map AffectedUser.email = ["A@X.COM"]
    ∧ lowerStr "A@X.COM" ≠ "A@X.COM" := by
  refine ⟨by decide, by decide⟩

/-- Invariant step for Strategy A: one loop iteration only ever appends a
user whose email passed the non-emptiness guard. -/
theorem methodOneStep_email_ne (st : List String × List AffectedUser)
    (e : TimelineEvent) (h : ∀ u ∈ st.2, u.email ≠ "") :
    ∀ u ∈ (methodOneStep st e).2, u.email ≠ "" := by
  unfold methodOneStep
  split
  · split
    · exact h
    · dsimp only
      split
      · rename_i hne
        intro u hu
        rcases List.mem_append.mp hu with h1 | h2
        · exact h u h1
        · rw [List.mem_singleton] at h2
          subst h2
          exact hne
      · exact h
  · exact h

/-- Invariant for the whole Strategy A fold. -/
theorem foldl_methodOne_email (tl : List TimelineEvent) :
    ∀ st, (∀ u ∈ st.2, u.email ≠ "") →
      ∀ u ∈ (tl.foldl methodOneStep st).2, u.email ≠ "" := by
  induction tl with
  | nil => intro st h; simpa using h
  | cons e tl ih =>
    intro st h
    simp only [List.foldl_cons]
    exact ih _ (methodOneStep_email_ne st e h)

/-- Invariant step for Strategy B: one loop iteration only ever appends a
user whose email passed the non-emptiness guard. -/
theorem methodTwoStep_email_ne (st : List String × List AffectedUser)
    (r : ResultRec) (h : ∀ u ∈ st.2, u.email ≠ "") :
    ∀ u ∈ (methodTwoStep st r).2, u.email ≠ "" := by
  unfold methodTwoStep
  split
  · split
    · rename_i hne
      dsimp only
      intro u hu
      rcases List.mem_append.mp hu with h1 | h2
      · exact h u h1
      · rw [List.mem_singleton] at h2
        subst h2
        exact hne.1
    · exact h
  · exact h

/-- Invariant for the whole Strategy B fold. -/
theorem foldl_methodTwo_email (rs : List ResultRec) :
    ∀ st, (∀ u ∈ st.2, u.email ≠ "") →
      ∀ u ∈ (rs.foldl methodTwoStep st).2, u.email ≠ "" := by
  induction rs with
  | nil => intro st h; simpa using h
  | cons r rs ih =>
    intro st h
    simp only [List.foldl_cons]
    exact ih _ (methodTwoStep_email_ne st r h)

/-- Strategy C emits only targets whose email passed the guard. -/
theorem methodThreeTarget_email_ne (now_iso : String) (clicked submitted : Int)
    (i : Nat) (t : TargetRec) :
    ∀ u ∈ methodThreeTarget now_iso clicked submitted i t, u.email ≠ "" := by
  unfold methodThreeTarget
  split
  · split
    · rename_i hne
      intro u hu
      rw [List.mem_singleton] at hu
      subst hu
      exact hne
    · intro u hu
      exact absurd hu (List.not_mem_nil u)
  · intro u hu
    exact absurd hu (List.not_mem_nil u)

/-- Invariant for the whole Strategy C reconstruction. -/
theorem methodThree_email_ne (now_iso : String) (clicked submitted : Int)
    (groups : List GroupRec) :
    ∀ u ∈ methodThree now_iso clicked submitted groups, u.email ≠ "" := by
  unfold methodThree
  cases groups with
  | nil => intro u hu; exact absurd hu (List.not_mem_nil u)
  | cons g gs =>
    dsimp only
    generalize (g.targets.getD []).enum = l
    have base : ∀ u ∈ ([] : List AffectedUser), u.email ≠ "" := by
      intro u hu; exact absurd hu (List.not_mem_nil u)
    revert base
    generalize ([] : List AffectedUser) = acc
    intro base
    induction l generalizing acc with
    | nil => simpa using base
    | cons p l ih =>
      simp only [List.foldl_cons]
      refine ih _ ?_
      intro u hu
      rcases List.mem_append.mp hu with h1 | h2
      · exact base u h1
      · exact methodThreeTarget_email_ne now_iso clicked submitted p.1 p.2 u h2

/-- Phase 3 preserves the non-empty-email invariant. -/
theorem strategyCFull_email_ne (env : ExtractEnv) (id : Int) (summary : Summary)
    (au : List AffectedUser) (h : ∀ u ∈ au, u.email ≠ "") :
    ∀ l, strategyCFull env id summary au = .ok l → ∀ u ∈ l, u.email ≠ "" := by
  intro l hl
  unfold strategyCFull at hl
  split at hl
  · split at hl
    · cases hg : env.get_campaign id with
      | error e => rw [hg] at hl; cases hl
      | ok cd =>
        rw [hg] at hl
        cases hl
        intro u hu
        rcases List.mem_append.mp hu with h1 | h2
        · exact h u h1
        · exact methodThree_email_ne env.now_iso _ _ _ u h2
    · cases hl; exact h
  · cases hl; exact h

/-- The try block of the pipeline only produces users with non-empty
emails. -/
theorem extractE_email_ne (env : ExtractEnv) (c : CampaignRec)
    (l : List AffectedUser) (h : extractE env c = .ok l) :
    ∀ u ∈ l, u.email ≠ "" := by
  unfold extractE at h
  cases hc : c.id with
  | none => rw [hc] at h; cases h
  | some id =>
    rw [hc] at h
    dsimp only at h
    cases hs : env.get_campaign_summary id with
    | error e => rw [hs] at h; cases h
    | ok results =>
      rw [hs] at h
      dsimp only at h
      split at h
      · cases hg : env.get_campaign id with
        | error e => rw [hg] at h; cases h
        | ok cd =>
          rw [hg] at h
          refine strategyCFull_email_ne env id results _ ?_ l h
          exact foldl_methodTwo_email _ _
            (foldl_methodOne_email _ ([], []) (by intro u hu; cases hu))
      · refine strategyCFull_email_ne env id results _ ?_ l h
        exact foldl_methodOne_email _ ([], []) (by intro u hu; cases hu)

/-- C5 amended: every AffectedUser record returned by
extract_campaign_results, from any of the three strategies, has a non-empty
email field; the email is copied verbatim from the source record and is not
lower-cased by the pipeline (the counterexample shows an upper-case email
passing through unchanged). -/
theorem extract_email_nonempty (env : ExtractEnv) (c : CampaignRec)
    (u : AffectedUser) (h : u ∈ extract_campaign_results env c) :
    u.email ≠ "" := by
  unfold extract_campaign_results at h
  cases he : extractE env c with
  | ok l =>
    rw [he] at h
    exact extractE_email_ne env c l he u h
  | error e =>
    rw [he] at h
    cases h

/-- Witness: the user extracted from the upper-case-email event has a
non-empty email. -/
theorem extract_email_nonempty_witness :
    ({ first_name := "", last_name := "", email := "A@X.COM", event_time := "",
       event_type := "Clicked Link" } : AffectedUser).email ≠ "" :=
  extract_email_nonempty envC5 cOne _ (by decide)

/-! ## C6 -/

/-- First target of the first group. -/
def tg0 : TargetRec := { first_name := some "F0", email := some "t0@x" }

/-- Second target of the first group. -/
def tg1 : TargetRec := { email := some "t1@x" }

/-- Third target of the first group. -/
def tg2 : TargetRec := { email := some "t2@x" }

/-- A target of the second group, which must never be consulted. -/
def tgz : TargetRec := { email := some "zz@x" }

/-- The first group: three targets with non-empty emails. -/
def grpA : GroupRec := { targets := some [tg0, tg1, tg2] }

/-- The second group, present to show only the first group is consulted. -/
def grpB : GroupRec := { targets := some [tgz] }

/-- Campaign details with empty per-target results and two groups. -/
def cdC6 : CampaignRec := { results := some [], groups := some [grpA, grpB] }

/-- Aggregate stats clicked = 2, submitted_data = 1. -/
def statsC6 : Stats := { clicked := some 2, submitted_data := some 1 }

/-- Summary with empty timeline and the activity stats. -/
def sumC6 : Summary := { timeline := some [], stats := some statsC6 }

/-- Environment serving the Strategy C scenario. -/
def envC6 : ExtractEnv :=
  { get_campaign_summary := fun _ => .ok sumC6
    get_campaign := fun _ => .ok cdC6
    now_iso := "NOW" }

/-- The campaign reference used in the Strategy C scenario. -/
def cC6 : CampaignRec := { id := some 7 }

/-- C6: with empty timeline, empty per-target results, stats clicked = 2 and
submitted_data = 1, and a first group of three targets with non-empty
emails, extract_campaign_results returns exactly two AffectedUsers — the
first target labeled Submitted Data and the second labeled Clicked Link —
and the second group (target zz@x) is never consulted. -/
theorem strategyC_stats_reconstruction :
    extract_campaign_results envC6 cC6 =
      [{ first_name := "F0", last_name := "", email := "t0@x",
         event_time := "NOW", event_type := "Submitted Data" },
       { first_name := "", last_name := "", email := "t1@x",
         event_time := "NOW", event_type := "Clicked Link" }] := by
  decide

/-! ## C7 -/

/-- C7: Strategy B runs exactly when Strategy A emitted nothing and the
fetched timeline is itself empty.  Since an empty timeline forces Strategy A
to emit nothing, the trigger is equivalent to the timeline being empty: the
first conjunct shows that with an empty timeline the pipeline result is the
Strategy B scan (followed by the stats check), and the second shows that
with a non-empty timeline — even one with zero matching events — the
pipeline result is the Strategy A output followed directly by the phase-3
stats check, with no access to the per-target result records. -/
theorem strategyB_trigger (env : ExtractEnv) (c : CampaignRec) (id : Int)
    (summary : Summary) (hid : c.id = some id)
    (hsum : env.get_campaign_summary id = .ok summary) :
    (summary.timeline.getD [] = [] →
       extractE env c =
         match env.get_campaign id with
         | .error e => .error e
         | .ok cd =>
             strategyCFull env id summary
               ((cd.results.getD []).foldl methodTwoStep
                 (strategyA (summary.timeline.getD []))).2)
    ∧ (summary.timeline.getD [] ≠ [] →
       extractE env c =
         strategyCFull env id summary (strategyA (summary.timeline.getD [])).2) := by
  constructor
  · intro htl
    unfold extractE
    rw [hid]
    dsimp only
    rw [hsum]
    dsimp only
    rw [if_pos]
    rw [htl]
    exact ⟨rfl, rfl⟩
  · intro htl
    unfold extractE
    rw [hid]
    dsimp only
    rw [hsum]
    dsimp only
    rw [if_neg]
    intro hcond
    exact htl (List.length_eq_zero.mp hcond.2)

/-- Witness: for the non-empty timeline served by envC5 the pipeline result
is the Strategy A output followed by the phase-3 stats check. -/
theorem strategyB_trigger_witness :
    extractE envC5 cOne =
      strategyCFull envC5 1 sumC5 (strategyA (sumC5.timeline.getD [])).2 :=
  (strategyB_trigger envC5 cOne 1 sumC5 rfl rfl).2 (by decide)

/-! ## C10 -/

/-- C10: in Strategy B, a per-target record with a non-empty, not yet
processed email that is flagged reported qualifies as an affected user even
when its status is neither Clicked Link nor Submitted Data and neither
status key is present, and the emitted AffectedUser is labeled
Clicked Link because the record carries no submitted-data indicator. -/
theorem strategyB_reported_only (processed : List String)
    (au : List AffectedUser) (r : ResultRec)
    (hrep : r.reported = some true)
    (_hck : r.has_clicked_key = false)
    (hsk : r.has_submitted_data_key = false)
    (_hstc : r.status ≠ some "Clicked Link")
    (hsts : r.status ≠ some "Submitted Data")
    (hem : r.email.getD "" ≠ "")
    (hmem : r.email.getD "" ∉ processed) :
    methodTwoStep (processed, au) r =
      (r.email.getD "" :: processed,
       au ++ [{ first_name := r.first_name.getD "", last_name := r.last_name.getD "",
                email := r.email.getD "", event_time := r.send_date.getD "",
                event_type := "Clicked Link" }]) := by
  unfold methodTwoStep
  rw [if_pos, if_pos ⟨hem, hmem⟩, if_neg]
  · intro hor
    rcases hor with hk | hs
    · rw [hsk] at hk; cases hk
    · exact hsts hs
  · right; right; right
    rw [hrep]
    rfl

/-- Witness: a record that only reported the phish is emitted labeled
Clicked Link. -/
theorem strategyB_reported_only_witness :
    methodTwoStep ([], [])
      { email := some "r@x", reported := some true, status := some "Email Opened",
        send_date := some "D" } =
      (["r@x"],
       [{ first_name := "", last_name := "", email := "r@x", event_time := "D",
          event_type := "Clicked Link" }]) :=
  strategyB_reported_only [] [] _ rfl rfl rfl (by decide) (by decide) (by decide)
    (by decide)

/-! ## Concrete monitor environments used by witnesses -/

/-- A campaign snapshot with an explicit Completed status. -/
def campDone : CampaignRec := { id := some 1, status := some "Completed" }

/-- A campaign snapshot still in progress. -/
def campRun : CampaignRec := { id := some 1, status := some "In progress" }

/-- Monitor environment: every poll fails and so does the final fetch. -/
def envM4 : MonEnv :=
  { polls := fun _ => .error "net", finalFetch := .error "down" }

/-- Monitor environment: every poll fails but the final fetch succeeds. -/
def envM4b : MonEnv :=
  { polls := fun _ => .error "net", finalFetch := .ok campRun }

/-- Monitor environment: the campaign is already Completed at every poll. -/
def envM9 : MonEnv :=
  { polls := fun _ => .ok (campDone, {}), finalFetch := .error "down" }

/-- Stats snapshot with everything delivered and one click. -/
def statsAct : Stats := { total := some 5, sent := some 5, clicked := some 1 }

/-- Summary carrying the sustained-activity stats. -/
def sumAct : Summary := { stats := some statsAct }

/-- Either the monitoring loop returned a snapshot it fetched during a poll,
or the result is exactly the outcome of the unguarded final fetch: a poll
failure alone can never surface as an exception. -/
theorem monitorGo_ok_or_final (env : MonEnv) (T : Nat) :
    ∀ fuel k lac, (monitorGo env T fuel k lac).res.isOk = true
      ∨ (monitorGo env T fuel k lac).res = env.finalFetch := by
  intro fuel
  induction fuel with
  | zero => intro k lac; right; rfl
  | succ f ih =>
    intro k lac
    unfold monitorGo
    split
    · cases hstep : monitorStep (env.polls k) (600 * k) lac with
      | ret c => left; rfl
      | cont lacNext => exact ih (k + 1) lacNext
    · right; rfl

/-! ## C2 -/

/-- C2: a transient upstream failure during any poll is caught and treated
as no new information — the step continues with the last_activity_check
unchanged and the loop sleeps and retries — and the monitor never raises due
to such a failure: its result is either a snapshot returned by a stop
condition during a poll or exactly the outcome of the deadline fetch. -/
theorem monitor_poll_failure_recovery (env : MonEnv) (k now : Nat)
    (lac : Option Nat) (e : String) (hours : Nat)
    (hp : env.polls k = .error e) :
    monitorStep (env.polls k) now lac = .cont lac
    ∧ ((wait_for_campaign_completion env hours).res.isOk = true
       ∨ (wait_for_campaign_completion env hours).res = env.finalFetch) := by
  constructor
  · rw [hp]; rfl
  · exact monitorGo_ok_or_final env (3600 * hours) (3600 * hours) 0 none

/-- Witness: in an environment whose polls always fail, a failing poll step
continues unchanged and the monitoring result is the final-fetch outcome. -/
theorem monitor_poll_failure_recovery_witness :
    monitorStep (envM4.polls 0) 0 none = .cont none
    ∧ ((wait_for_campaign_completion envM4 1).res.isOk = true
       ∨ (wait_for_campaign_completion envM4 1).res = envM4.finalFetch) :=
  monitor_poll_failure_recovery envM4 0 0 none "net" 1 rfl

/-! ## C4 -/

/-- Counterexample to C4: with every poll failing no stop condition ever
fires, yet the call ends in the exception of the unguarded final fetch
rather than returning a snapshot: the post-deadline get_campaign at the end
of wait_for_campaign_completion is outside the try block. -/
theorem monitor_timeout_counterexample :
    (∀ k, envM4.polls k = Except.error "net")
    ∧ (wait_for_campaign_completion envM4 1).res = Except.error "down" :=
  ⟨fun _ => rfl, rfl⟩

/-- If no stop condition ever fires before the deadline, the loop runs to
the deadline exactly and the call ends with the final-fetch outcome. -/
theorem monitorGo_no_stop (env : MonEnv) (T : Nat) (hT : T % 600 = 0)
    (hstop : ∀ k lac c, 600 * k < T →
      monitorStep (env.polls k) (600 * k) lac ≠ .ret c) :
    ∀ fuel k lac, 600 * k ≤ T → T ≤ 600 * k + 600 * fuel →
      monitorGo env T fuel k lac = ⟨T, env.finalFetch⟩ := by
  intro fuel
  induction fuel with
  | zero =>
    intro k lac h1 h2
    have hk : 600 * k = T := by omega
    unfold monitorGo
    rw [hk]
  | succ f ih =>
    intro k lac h1 h2
    unfold monitorGo
    by_cases hlt : 600 * k < T
    · rw [if_pos hlt]
      cases hstep : monitorStep (env.polls k) (600 * k) lac with
      | ret c => exact absurd hstep (hstop k lac c hlt)
      | cont lacNext => exact ih (k + 1) lacNext (by omega) (by omega)
    · rw [if_neg hlt]
      have hk : 600 * k = T := by omega
      rw [hk]

/-- C4 amended: if no stop condition ever fires during the call, the monitor
reaches the configured deadline exactly — its return time is
start_time + 3600 * timeout_hours in the discrete time model — and ends with
the outcome of one last fresh fetch; when that final fetch succeeds the
snapshot is returned with no exception, but a failing final fetch raises,
because it happens outside the try block. -/
theorem monitor_deadline_exact (env : MonEnv) (hours : Nat) (cF : CampaignRec)
    (hstop : ∀ k lac c, 600 * k < 3600 * hours →
      monitorStep (env.polls k) (600 * k) lac ≠ StepRes.ret c)
    (hfin : env.finalFetch = .ok cF) :
    wait_for_campaign_completion env hours = ⟨3600 * hours, .ok cF⟩ := by
  unfold wait_for_campaign_completion
  rw [← hfin]
  exact monitorGo_no_stop env (3600 * hours) (by omega) hstop (3600 * hours) 0
    none (by omega) (by omega)

/-- Witness: with all polls failing (so no stop condition can fire) and a
succeeding final fetch, the one-hour call returns the final snapshot exactly
at second 3600. -/
theorem monitor_deadline_exact_witness :
    wait_for_campaign_completion envM4b 1 = ⟨3600 * 1, Except.ok campRun⟩ :=
  monitor_deadline_exact envM4b 1 campRun
    (fun k lac c _ hcontra => by simp [envM4b, monitorStep] at hcontra) rfl

/-! ## C8 -/

/-- C8: the quiet-period reference timestamp of the monitor.  First
conjunct: on a poll where the sustained-activity condition is observed with
no timestamp recorded yet (and no explicit completion), the step records the
current time and continues.  Second conjunct: once recorded, no continuing
step ever changes the timestamp — it is never reset for the rest of the
call, whatever the poll outcome.  Third conjunct: on any later poll where
the condition still holds and strictly more than 1800 seconds have elapsed
since the recorded timestamp, the step stops and returns the current
snapshot. -/
theorem monitor_quiet_period (camp : CampaignRec) (summ : Summary)
    (now t : Nat) (lacNext : Option Nat) :
    (camp.status.getD "Unknown" ∉ completedStatuses →
       activityCond (summ.stats.getD {}) →
       monitorStep (.ok (camp, summ)) now none = .cont (some now))
    ∧ (∀ p : Except String (CampaignRec × Summary),
         monitorStep p now (some t) = .cont lacNext → lacNext = some t)
    ∧ (activityCond (summ.stats.getD {}) → (now : Int) - t > 1800 →
         monitorStep (.ok (camp, summ)) now (some t) = .ret camp) := by
  refine ⟨?_, ?_, ?_⟩
  · intro hst hact
    obtain ⟨h1, h2, h3⟩ := hact
    simp only [monitorStep]
    rw [if_neg hst, if_pos ⟨h1, h2⟩, if_pos h3]
  · intro p hp
    cases p with
    | error e =>
      simp only [monitorStep] at hp
      cases hp
      rfl
    | ok pr =>
      obtain ⟨camp2, summ2⟩ := pr
      simp only [monitorStep] at hp
      split at hp
      · cases hp
      · split at hp
        · split at hp
          · split at hp
            · cases hp
            · cases hp; rfl
          · split at hp
            · split at hp
              · cases hp
              · cases hp; rfl
            · cases hp; rfl
        · cases hp; rfl
  · intro hact hgt
    obtain ⟨h1, h2, h3⟩ := hact
    simp only [monitorStep]
    by_cases hst : camp.status.getD "Unknown" ∈ completedStatuses
    · rw [if_pos hst]
    · rw [if_neg hst, if_pos ⟨h1, h2⟩, if_pos h3, if_pos hgt]

/-- Witness: with everything delivered and one click, the timestamp is
recorded on first observation, a failing poll keeps a recorded timestamp,
and after 1801 seconds the step returns the snapshot. -/
theorem monitor_quiet_period_witness :
    monitorStep (.ok (campRun, sumAct)) 0 none = .cont (some 0)
    ∧ (some 7 : Option Nat) = some 7
    ∧ monitorStep (.ok (campRun, sumAct)) 1801 (some 0) = .ret campRun :=
  ⟨(monitor_quiet_period campRun sumAct 0 7 (some 7)).1 (by decide) (by decide),
   (monitor_quiet_period campRun sumAct 100 7 (some 7)).2.1
     (Except.error "net") (by decide),
   (monitor_quiet_period campRun sumAct 1801 0 none).2.2 (by decide) (by decide)⟩

/-! ## C9 -/

/-- C9: a campaign whose status label is in the completed set at the first
poll makes wait_for_campaign_completion return that very snapshot at time 0
— on the first poll, before any sleep — whatever the stats summary says, so
no delivered/activity heuristic is ever consulted. -/
theorem monitor_completed_first_poll (env : MonEnv) (camp : CampaignRec)
    (summ : Summary) (hours : Nat) (hp : env.polls 0 = .ok (camp, summ))
    (hst : camp.status.getD "Unknown" ∈ completedStatuses) (hh : 0 < hours) :
    wait_for_campaign_completion env hours = ⟨0, .ok camp⟩ := by
  unfold wait_for_campaign_completion
  obtain ⟨f, hf⟩ : ∃ f, 3600 * hours = f + 1 := ⟨3600 * hours - 1, by omega⟩
  rw [hf]
  unfold monitorGo
  rw [if_pos (by omega : 600 * 0 < f + 1), hp]
  simp only [monitorStep]
  rw [if_pos hst]

/-- Witness: a campaign Completed at the first poll is returned at time 0
even though the final fetch of that environment would fail. -/
theorem monitor_completed_first_poll_witness :
    wait_for_campaign_completion envM9 1 = ⟨0, Except.ok campDone⟩ :=
  monitor_completed_first_poll envM9 campDone {} 1 rfl (by decide) (by decide)
